import Mathlib

/-!
Shallow embedding of the PacketPrism backend (src/backend/main.py): the
protocol-hierarchy parser `parse_phs`, the conversation parser `parse_conv`,
the heuristic risk scorer `calculate_risk`, the PDF story builder of
`generate_pdf_file`, the error path of `analyze_pcap`, and the path join of
`download_file`.  Python strings are Lean `String`s; `str.split('\n')` is
`pyLines` (both cut at every newline and keep empty pieces); machine integers
never overflow here (all counts come from decimal digit runs), so `Nat` is
used.

The two regular expressions are embedded as deterministic maximal-munch
matchers.  This is faithful because in both patterns every `+`-quantified
character class is followed by a character that can never belong to that
class (`\w+` by whitespace, `\s+` by a word character or `<`, `\d+` by `.`
or whitespace or the end of the pattern), so the greedy backtracking engine
of Python's `re` never benefits from giving back characters: the leftmost
match found by `re.search` is exactly the first position at which the
maximal-munch match succeeds.  Character classes are modelled over ASCII
(the alphabet of tshark output).
-/

/-- Python `str.split(sep)` for a one-character separator, on character lists:
cut at every occurrence, keeping empty pieces (`acc` holds the current piece
in reverse). -/
def splitSepAux (sep : Char) : List Char → List Char → List (List Char)
  | [], acc => [acc.reverse]
  | c :: cs, acc =>
    if c = sep then acc.reverse :: splitSepAux sep cs []
    else splitSepAux sep cs (c :: acc)

/-- Python `s.split('\n')`. -/
def pyLines (s : String) : List String :=
  (splitSepAux '\n' s.data []).map String.mk

/-- Python `\w` over ASCII: letters, digits, underscore. -/
def isWordChar (c : Char) : Bool := c.isAlphanum || c = '_'

/-- Python `\d` over ASCII. -/
def isDigitChar (c : Char) : Bool := c.isDigit

/-- Python `\s` over ASCII: space, tab, newline, carriage return, vertical tab, form feed. -/
def isSpaceChar (c : Char) : Bool :=
  c = ' ' || c = '\t' || c = '\n' || c = '\r' || c = '\x0b' || c = '\x0c'

/-- Split a character list into its longest leading run satisfying `p` and the rest. -/
def takeRun (p : Char → Bool) : List Char → List Char × List Char
  | [] => ([], [])
  | c :: cs =>
    if p c then
      let (t, r) := takeRun p cs
      (c :: t, r)
    else ([], c :: cs)

/-- Match one-or-more characters of class `p` (a `+`-quantified class), maximal munch. -/
def matchRun1 (p : Char → Bool) (cs : List Char) : Option (List Char × List Char) :=
  match takeRun p cs with
  | ([], _) => none
  | (t, r) => some (t, r)

/-- Match a literal character sequence, returning the remainder. -/
def matchLit : List Char → List Char → Option (List Char)
  | [], cs => some cs
  | _, [] => none
  | l :: ls, c :: cs => if c = l then matchLit ls cs else none

/-- Value of a run of decimal digits, as Python `int` of the matched group. -/
def natOfDigits (ds : List Char) : Nat :=
  ds.foldl (fun n c => n * 10 + (c.toNat - 48)) 0

/-- One row of tshark `-z io,phs` output as parsed by `parse_phs`
(dict keys `protocol`, `packets`, `bytes` in the source). -/
structure ProtocolRecord where
  protocol : String
  packets : Nat
  bytes : Nat
deriving DecidableEq

/-- Attempt the pattern `(\w+)\s+frames:(\d+)\s+bytes:(\d+)` anchored at the
start of `cs`. -/
def matchPhsAt (cs : List Char) : Option ProtocolRecord := do
  let (w, r1) ← matchRun1 isWordChar cs
  let (_, r2) ← matchRun1 isSpaceChar r1
  let r3 ← matchLit "frames:".data r2
  let (d1, r4) ← matchRun1 isDigitChar r3
  let (_, r5) ← matchRun1 isSpaceChar r4
  let r6 ← matchLit "bytes:".data r5
  let (d2, _) ← matchRun1 isDigitChar r6
  pure ⟨String.mk w, natOfDigits d1, natOfDigits d2⟩

/-- `re.search` for the hierarchy pattern: try every start position left to right. -/
def searchPhs : List Char → Option ProtocolRecord
  | [] => none
  | c :: cs =>
    match matchPhsAt (c :: cs) with
    | some r => some r
    | none => searchPhs cs

/-- The match attempt `parse_phs` makes on one line of the hierarchy text. -/
def phsLineMatch (line : String) : Option ProtocolRecord :=
  searchPhs line.data

/-- The accumulation loop of `parse_phs`: scan lines in order, appending each match. -/
def phsLoop : List String → List ProtocolRecord → List ProtocolRecord
  | [], data => data
  | line :: rest, data =>
    match phsLineMatch line with
    | some r => phsLoop rest (data ++ [r])
    | none => phsLoop rest data

/-- `parse_phs` (main.py lines 32-44): collect every matching line of
`phs_output.split('\n')` in textual order, then truncate with `data[:8]`. -/
def parse_phs (phs_output : String) : List ProtocolRecord :=
  (phsLoop (pyLines phs_output) []).take 8

/-- One row of tshark `-z conv,ip` output as parsed by `parse_conv`. -/
structure ConvRecord where
  src : String
  dst : String
  packets : Nat
  bytes : Nat
  total_packets : Nat
  total_bytes : Nat
deriving DecidableEq

/-- Match `\d+\.\d+\.\d+\.\d+` (an IPv4-shaped token) anchored at the start,
returning the matched group and the remainder. -/
def matchIpv4 (cs : List Char) : Option (List Char × List Char) := do
  let (d1, r1) ← matchRun1 isDigitChar cs
  let r2 ← matchLit ".".data r1
  let (d2, r3) ← matchRun1 isDigitChar r2
  let r4 ← matchLit ".".data r3
  let (d3, r5) ← matchRun1 isDigitChar r4
  let r6 ← matchLit ".".data r5
  let (d4, r7) ← matchRun1 isDigitChar r6
  pure (d1 ++ '.' :: d2 ++ '.' :: d3 ++ '.' :: d4, r7)

/-- Attempt the conversation pattern
`(ipv4)\s+<->\s+(ipv4)\s+(\d+)\s+(\d+)\s+(\d+)\s+(\d+)` anchored at the start. -/
def matchConvAt (cs : List Char) : Option ConvRecord := do
  let (ip1, r1) ← matchIpv4 cs
  let (_, r2) ← matchRun1 isSpaceChar r1
  let r3 ← matchLit "<->".data r2
  let (_, r4) ← matchRun1 isSpaceChar r3
  let (ip2, r5) ← matchIpv4 r4
  let (_, r6) ← matchRun1 isSpaceChar r5
  let (n1, r7) ← matchRun1 isDigitChar r6
  let (_, r8) ← matchRun1 isSpaceChar r7
  let (n2, r9) ← matchRun1 isDigitChar r8
  let (_, r10) ← matchRun1 isSpaceChar r9
  let (n3, r11) ← matchRun1 isDigitChar r10
  let (_, r12) ← matchRun1 isSpaceChar r11
  let (n4, _) ← matchRun1 isDigitChar r12
  pure ⟨String.mk ip1, String.mk ip2, natOfDigits n1, natOfDigits n2,
        natOfDigits n3, natOfDigits n4⟩

/-- `re.search` for the conversation pattern. -/
def searchConv : List Char → Option ConvRecord
  | [] => none
  | c :: cs =>
    match matchConvAt (c :: cs) with
    | some r => some r
    | none => searchConv cs

/-- The match attempt `parse_conv` makes on one line of the conversation text. -/
def convLineMatch (line : String) : Option ConvRecord :=
  searchConv line.data

/-- The accumulation loop of `parse_conv`. -/
def convLoop : List String → List ConvRecord → List ConvRecord
  | [], data => data
  | line :: rest, data =>
    match convLineMatch line with
    | some r => convLoop rest (data ++ [r])
    | none => convLoop rest data

/-- The comparison realising Python `sorted(data, key=lambda x: x['total_bytes'],
reverse=True)`: `a` may precede `b` when `b` has no more total bytes. -/
def convDescBytes (a b : ConvRecord) : Bool :=
  Nat.ble b.total_bytes a.total_bytes

/-- `parse_conv` (main.py lines 46-61): collect every matching line, sort
descending by `total_bytes` (Python's `sorted` is stable, as is `mergeSort`,
so the two agree exactly), then truncate with `[:10]`. -/
def parse_conv (conv_output : String) : List ConvRecord :=
  ((convLoop (pyLines conv_output) []).mergeSort convDescBytes).take 10

/-- Python substring test `needle in hay`, on character lists: does `n` occur
as a contiguous block at the head of `h`? -/
def hasLead (n h : List Char) : Bool :=
  (matchLit n h).isSome

/-- Python substring test `needle in hay`, on character lists: does `n` occur
as a contiguous block anywhere in `h`? -/
def hasSub (n : List Char) : List Char → Bool
  | [] => hasLead n []
  | c :: cs => hasLead n (c :: cs) || hasSub n cs

/-- Python's `needle in hay` on strings. -/
def containsSub (needle hay : String) : Bool :=
  hasSub needle.data hay.data

/-- Reason string appended by the critical-diagnostic rule (main.py line 69). -/
def critReason : String :=
  "Critical Expert Errors detected (Potential Malformed Packets/Attacks)"

/-- Reason string appended by the warning-diagnostic rule (main.py line 72). -/
def warnReason : String :=
  "Expert Warnings found in traffic stream"

/-- Reason string appended by the legacy-protocol rule (main.py line 76). -/
def legacyReason : String :=
  "Insecure/Legacy protocols detected (Telnet/IRC)"

/-- Reason string appended by the DNS-only rule (main.py line 80). -/
def dnsReason : String :=
  "Anomalous DNS-only traffic pattern (Potential C2/Exfiltration)"

/-- Default reason when no rule fired (main.py line 87). -/
def defaultReason : String :=
  "No major anomalies detected."

/-- Score contribution of the `if "Error" ... elif "Warn" ...` block
(main.py lines 67-72). -/
def expertScore (expert_info : String) : Nat :=
  if containsSub "Error" expert_info then 40
  else if containsSub "Warn" expert_info then 20
  else 0

/-- Reasons appended by the `if "Error" ... elif "Warn" ...` block. -/
def expertReasons (expert_info : String) : List String :=
  if containsSub "Error" expert_info then [critReason]
  else if containsSub "Warn" expert_info then [warnReason]
  else []

/-- Guard of the legacy-protocol rule: `"Telnet" in proto_stats or "IRC" in proto_stats`. -/
def legacyFired (proto_stats : String) : Bool :=
  containsSub "Telnet" proto_stats || containsSub "IRC" proto_stats

/-- Guard of the DNS-only rule:
`"DNS" in proto_stats and len(proto_stats.split('\n')) < 5`. -/
def dnsFired (proto_stats : String) : Bool :=
  containsSub "DNS" proto_stats && decide ((pyLines proto_stats).length < 5)

/-- The value of the `score` variable after all rules ran, before the
`min(score, 100)` clamp in the returned dict. -/
def rawScore (expert_info proto_stats : String) : Nat :=
  expertScore expert_info
    + (if legacyFired proto_stats then 30 else 0)
    + (if dnsFired proto_stats then 15 else 0)

/-- The value of the `reasons` variable after all rules ran: one entry per
fired rule, appended in rule order. -/
def firedReasons (expert_info proto_stats : String) : List String :=
  expertReasons expert_info
    ++ (if legacyFired proto_stats then [legacyReason] else [])
    ++ (if dnsFired proto_stats then [dnsReason] else [])

/-- The `level` assignment of `calculate_risk` (main.py lines 83-85), a
function of the unclamped score. -/
def levelOf (score : Nat) : String :=
  if 70 ≤ score then "High"
  else if 30 ≤ score then "Medium"
  else "Low"

/-- The dict returned by `calculate_risk`. -/
structure RiskAssessment where
  score : Nat
  level : String
  reasons : List String
deriving DecidableEq

/-- `calculate_risk` (main.py lines 63-87): additive rule contributions, level
from the unclamped score, score clamped with `min(score, 100)`, and the
default reason substituted when no rule fired
(`reasons if reasons else [...]`). -/
def calculate_risk (expert_info proto_stats : String) : RiskAssessment :=
  { score := min (rawScore expert_info proto_stats) 100,
    level := levelOf (rawScore expert_info proto_stats),
    reasons :=
      if (firedReasons expert_info proto_stats).isEmpty then [defaultReason]
      else firedReasons expert_info proto_stats }

/-- Outcome of one failed external-tool invocation: the command line that was
run (including the `-z` report-mode selector), its exit status (positive exit
statuses are modelled), and whatever the process wrote to its standard error
stream.  `subprocess.check_output` is called without capturing stderr, so the
stderr text goes to the parent's stream and appears in no Python object. -/
structure FailedInvocation where
  cmd : List String
  returncode : Nat
  stderrText : String
deriving DecidableEq

/-- Python `repr` of a string, for strings without quotes or backslashes. -/
def pyReprStr (s : String) : String := "\x27" ++ s ++ "\x27"

/-- Python `str` of a list of strings. -/
def pyStrList (xs : List String) : String :=
  "[" ++ String.intercalate ", " (xs.map pyReprStr) ++ "]"

/-- `str(e)` for the `subprocess.CalledProcessError` that `check_output`
raises on a positive exit status:
`"Command '%s' returned non-zero exit status %d." % (cmd, returncode)`.
The process's stderr text appears nowhere in it. -/
def calledProcessErrorMessage (f : FailedInvocation) : String :=
  "Command \x27" ++ pyStrList f.cmd ++ "\x27 returned non-zero exit status "
    ++ toString f.returncode ++ "."

/-- The JSON payload built by the `except Exception` handler of
`analyze_pcap` (main.py line 141): `{"status": "error", "message": str(e)}`. -/
structure ErrorResponse where
  status : String
  message : String
deriving DecidableEq

/-- The response `analyze_pcap` produces when a tool invocation exits with a
positive status: the blanket handler turns the raised
`CalledProcessError` into a generic error payload. -/
def analyze_error_response (f : FailedInvocation) : ErrorResponse :=
  ⟨"error", calledProcessErrorMessage f⟩

/-- One flowable appended to the `story` list in `generate_pdf_file`. -/
inductive Element where
  | para (text style : String)
  | spacer (w h : Nat)
  | preformatted (text style : String)
  | table (rows : List (List String))
deriving DecidableEq

/-- Python `html.escape(s)` (with its default `quote=True`).  The library
applies the five replacements sequentially, `&` first; since no replacement
string contains a character replaced by a later stage, this equals the
per-character mapping. -/
def htmlEscapeChar (c : Char) : List Char :=
  if c = '&' then "&amp;".data
  else if c = '<' then "&lt;".data
  else if c = '>' then "&gt;".data
  else if c = '"' then "&quot;".data
  else if c = '\x27' then "&#x27;".data
  else [c]

/-- Python `html.escape`. -/
def htmlEscape (s : String) : String :=
  String.mk (s.data.map htmlEscapeChar).flatten

/-- The argument `generate_pdf_file` receives from `analyze_pcap`: filename,
risk dict, raw hierarchy text, and the parsed conversation records. -/
structure ReportData where
  filename : String
  risk : RiskAssessment
  protocol_hierarchy : String
  top_talkers : List ConvRecord

/-- One row of the top-talkers table (main.py lines 194-199). -/
def talkerRow (h : ConvRecord) : List String :=
  [htmlEscape h.src, htmlEscape h.dst,
    toString h.total_bytes ++ " B", toString h.total_packets]

/-- The `story` list built by `generate_pdf_file` (main.py lines 158-202):
title, filename line, risk section with bulleted reasons (or a placeholder
when the reasons list is empty), the preformatted hierarchy text, then the
top-talkers heading followed by the table — the table is appended only when
`hosts` is truthy (`if hosts and isinstance(hosts, list)`), and no `else`
branch exists for that section. -/
def generate_story (data : ReportData) : List Element :=
  [Element.para "PacketPrism Forensics Report" "Title",
   Element.para ("File: " ++ htmlEscape data.filename) "Normal",
   Element.spacer 1 12,
   Element.para ("Risk Assessment: " ++ htmlEscape data.risk.level
     ++ " (Score: " ++ toString data.risk.score ++ ")") "Heading2"]
  ++ (if data.risk.reasons.isEmpty then [Element.para "No anomalies detected." "Normal"]
      else data.risk.reasons.map (fun r => Element.para ("• " ++ htmlEscape r) "Normal"))
  ++ [Element.spacer 1 12,
      Element.para "Protocol Hierarchy" "Heading2",
      Element.preformatted data.protocol_hierarchy "PrismCode",
      Element.spacer 1 12,
      Element.para "Host Communication Analysis (Top Talkers)" "Heading2"]
  ++ (if data.top_talkers.isEmpty then []
      else [Element.table ([["Source", "Destination", "Bytes", "Packets"]]
        ++ data.top_talkers.map talkerRow)])

/-- A concrete `ReportData` whose top-talkers list is empty. -/
def emptyTalkersData : ReportData :=
  ⟨"capture.pcap", ⟨0, "Low", [defaultReason]⟩, "hier", []⟩

/-- The `UPLOAD_DIR` constant (main.py line 27). -/
def UPLOAD_DIR : String := "uploads"

/-- Python `os.path.join(a, b)` on POSIX: an absolute second part replaces
the first; otherwise the parts are glued with a `/` unless one is already
there. -/
def osPathJoin (a b : String) : String :=
  if hasLead "/".data b.data then b
  else if a.data = [] || a.data.getLast? = some '/' then a ++ b
  else a ++ "/" ++ b

/-- The path `download_file` serves (main.py line 227):
`os.path.join(UPLOAD_DIR, filename)` with the caller-supplied `filename`,
no normalization and no separator check. -/
def download_path (filename : String) : String :=
  osPathJoin UPLOAD_DIR filename

/-- Join path components with `/`. -/
def joinSlash : List String → String
  | [] => ""
  | [x] => x
  | x :: y :: xs => x ++ "/" ++ joinSlash (y :: xs)

/-- Python `posixpath.normpath`: collapse `.`, empty components and
resolvable `..` components; leading `..` components of a relative path are
kept, and one or two (but not three or more) leading slashes are
preserved. -/
def posixNormpath (path : String) : String :=
  if path = "" then "."
  else
    let slashes : Nat :=
      if hasLead "//".data path.data && !hasLead "///".data path.data then 2
      else if hasLead "/".data path.data then 1
      else 0
    let comps := (splitSepAux '/' path.data []).map String.mk
    let newComps := comps.foldl
      (fun acc comp =>
        if comp = "" ∨ comp = "." then acc
        else if comp ≠ ".." ∨ (slashes = 0 ∧ acc = []) ∨ acc.getLast? = some ".." then
          acc ++ [comp]
        else acc.dropLast)
      []
    let res := String.mk (List.replicate slashes '/') ++ joinSlash newComps
    if res = "" then "." else res

/-- Does a path, once normalized, still point into the storage directory? -/
def withinUploadDir (p : String) : Bool :=
  posixNormpath p == UPLOAD_DIR
    || hasLead (UPLOAD_DIR ++ "/").data (posixNormpath p).data

/-! ## Risk scorer: basic bounds -/

theorem expertScore_le (e : String) : expertScore e ≤ 40 := by
  unfold expertScore
  split
  · omega
  · split <;> omega

theorem rawScore_le (e p : String) : rawScore e p ≤ 85 := by
  have h := expertScore_le e
  unfold rawScore
  split <;> split <;> omega

theorem calculate_risk_score_eq_raw (e p : String) :
    (calculate_risk e p).score = rawScore e p := by
  have h := rawScore_le e p
  show min (rawScore e p) 100 = rawScore e p
  omega

theorem levelOf_eq_high_iff (n : Nat) : levelOf n = "High" ↔ 70 ≤ n := by
  by_cases h70 : 70 ≤ n <;> by_cases h30 : 30 ≤ n <;>
    simp [levelOf, h70, h30]

theorem levelOf_eq_medium_iff (n : Nat) : levelOf n = "Medium" ↔ 30 ≤ n ∧ n < 70 := by
  by_cases h70 : 70 ≤ n <;> by_cases h30 : 30 ≤ n <;>
    simp [levelOf, h70, h30]
  omega

theorem levelOf_eq_low_iff (n : Nat) : levelOf n = "Low" ↔ n < 30 := by
  by_cases h70 : 70 ≤ n <;> by_cases h30 : 30 ≤ n <;>
    simp [levelOf, h70, h30]
  all_goals omega

/-- C1: for every pair of input texts, the score returned by `calculate_risk`
lies in `[0, 100]` (it is a `Nat`, so `0 ≤ score` holds by type), the level is
computed from the returned score alone by the pure function `levelOf`, and the
level is `"High"` iff the score is at least 70, `"Medium"` iff it is in
`[30, 70)`, and `"Low"` iff it is below 30. -/
theorem risk_score_bounded_level_determined (e p : String) :
    (calculate_risk e p).score ≤ 100 ∧
    (calculate_risk e p).level = levelOf (calculate_risk e p).score ∧
    ((calculate_risk e p).level = "High" ↔ 70 ≤ (calculate_risk e p).score) ∧
    ((calculate_risk e p).level = "Medium" ↔
      30 ≤ (calculate_risk e p).score ∧ (calculate_risk e p).score < 70) ∧
    ((calculate_risk e p).level = "Low" ↔ (calculate_risk e p).score < 30) := by
  have hs := calculate_risk_score_eq_raw e p
  have hl : (calculate_risk e p).level = levelOf (rawScore e p) := rfl
  rw [hs, hl]
  exact ⟨le_trans (rawScore_le e p) (by omega), rfl,
    levelOf_eq_high_iff _, levelOf_eq_medium_iff _, levelOf_eq_low_iff _⟩

/-- C9: the raw additive score computed inside `calculate_risk` before the
clamp is at most 85 = 40 + 30 + 15, so `min(score, 100)` is the identity: the
returned score equals the unclamped sum, and the level is the function
`levelOf` of that same unclamped value. -/
theorem raw_score_le_85_clamp_never_fires (e p : String) :
    rawScore e p ≤ 85 ∧
    min (rawScore e p) 100 = rawScore e p ∧
    (calculate_risk e p).score = rawScore e p ∧
    (calculate_risk e p).level = levelOf (rawScore e p) := by
  have h := rawScore_le e p
  exact ⟨h, by omega, calculate_risk_score_eq_raw e p, rfl⟩

/-- C6: the reasons list of the returned `RiskAssessment` is never empty: it
is the list of fired reasons, accumulated in rule order, when at least one
rule fired, and exactly the single default entry otherwise. -/
theorem risk_reasons_nonempty (e p : String) :
    0 < (calculate_risk e p).reasons.length ∧
    (calculate_risk e p).reasons =
      (if firedReasons e p = [] then [defaultReason] else firedReasons e p) := by
  by_cases h : firedReasons e p = []
  · simp [calculate_risk, h]
  · constructor
    · show 0 < (if (firedReasons e p).isEmpty then [defaultReason]
        else firedReasons e p).length
      rw [if_neg (by simpa [List.isEmpty_iff] using h)]
      exact List.length_pos.mpr h
    · show (if (firedReasons e p).isEmpty then [defaultReason]
        else firedReasons e p) = _
      rw [if_neg (by simpa [List.isEmpty_iff] using h), if_neg h]

/-- C4: the critical-diagnostic rule (+40) and the warning-diagnostic rule
(+20) are mutually exclusive: whenever the warning reason was emitted, the
critical marker `"Error"` was absent from the expert text and the critical
reason was not emitted, so the two rules never both contribute. -/
theorem warn_rule_excludes_crit_rule (e p : String)
    (h : warnReason ∈ (calculate_risk e p).reasons) :
    containsSub "Error" e = false ∧
    ((calculate_risk e p).reasons.contains critReason) = false := by
  by_cases hE : containsSub "Error" e <;>
    by_cases hW : containsSub "Warn" e <;>
      by_cases hL : legacyFired p <;>
        by_cases hD : dnsFired p <;>
          simp_all [calculate_risk, firedReasons, expertReasons, critReason,
            warnReason, legacyReason, dnsReason, defaultReason]

theorem warn_rule_excludes_crit_rule_witness :
    warnReason ∈ (calculate_risk "Warn" "").reasons ∧
    (containsSub "Error" "Warn" = false ∧
      ((calculate_risk "Warn" "").reasons.contains critReason) = false) :=
  ⟨by decide, warn_rule_excludes_crit_rule "Warn" "" (by decide)⟩

/-! ## Parsers -/

theorem phsLoop_eq (ls : List String) (acc : List ProtocolRecord) :
    phsLoop ls acc = acc ++ ls.filterMap phsLineMatch := by
  induction ls generalizing acc with
  | nil => simp [phsLoop]
  | cons line rest ih =>
    cases h : phsLineMatch line <;> simp [phsLoop, h, ih]

theorem convLoop_eq (ls : List String) (acc : List ConvRecord) :
    convLoop ls acc = acc ++ ls.filterMap convLineMatch := by
  induction ls generalizing acc with
  | nil => simp [convLoop]
  | cons line rest ih =>
    cases h : convLineMatch line <;> simp [convLoop, h, ih]

/-- C2: for every hierarchy text, `parse_phs` returns at most 8 records; the
result is exactly the first 8 matches in the order the matching lines appear
in the text (position-based truncation, not a top-8-by-size selection), and
every frame and byte count is a non-negative integer. -/
theorem parse_phs_first8_in_text_order (s : String) :
    (parse_phs s).length ≤ 8 ∧
    parse_phs s = ((pyLines s).filterMap phsLineMatch).take 8 ∧
    ∀ r ∈ parse_phs s, 0 ≤ (r.packets : Int) ∧ 0 ≤ (r.bytes : Int) := by
  refine ⟨?_, ?_, ?_⟩
  · rw [parse_phs, List.length_take]
    exact Nat.min_le_left _ _
  · rw [parse_phs, phsLoop_eq, List.nil_append]
  · intro r _
    exact ⟨Int.natCast_nonneg _, Int.natCast_nonneg _⟩

theorem parse_phs_first8_in_text_order_witness :
    (⟨"tcp", 120, 15000⟩ : ProtocolRecord) ∈ parse_phs "tcp frames:120 bytes:15000" ∧
    (0 ≤ (((⟨"tcp", 120, 15000⟩ : ProtocolRecord)).packets : Int) ∧
      0 ≤ (((⟨"tcp", 120, 15000⟩ : ProtocolRecord)).bytes : Int)) :=
  ⟨by decide,
    (parse_phs_first8_in_text_order "tcp frames:120 bytes:15000").2.2
      ⟨"tcp", 120, 15000⟩ (by decide)⟩

theorem convDescBytes_trans (a b c : ConvRecord) :
    convDescBytes a b → convDescBytes b c → convDescBytes a c := by
  simp only [convDescBytes, Nat.ble_eq]
  omega

theorem convDescBytes_total (a b : ConvRecord) :
    convDescBytes a b || convDescBytes b a := by
  simp only [convDescBytes, Bool.or_eq_true, Nat.ble_eq]
  omega

/-- C3: for every conversation text, `parse_conv` returns at most 10 records,
the returned list is sorted in descending order of `total_bytes` (every
earlier record has at least the `total_bytes` of every later one, hence of
its immediate successor), and every numeric field is a non-negative
integer. -/
theorem parse_conv_sorted_desc_capped (s : String) :
    (parse_conv s).length ≤ 10 ∧
    (parse_conv s).Pairwise (fun a b => b.total_bytes ≤ a.total_bytes) ∧
    ∀ r ∈ parse_conv s, 0 ≤ (r.packets : Int) ∧ 0 ≤ (r.bytes : Int) ∧
      0 ≤ (r.total_packets : Int) ∧ 0 ≤ (r.total_bytes : Int) := by
  refine ⟨?_, ?_, ?_⟩
  · rw [parse_conv, List.length_take]
    exact Nat.min_le_left _ _
  · have hs := List.sorted_mergeSort convDescBytes_trans convDescBytes_total
      (convLoop (pyLines s) [])
    have hs2 : ((convLoop (pyLines s) []).mergeSort convDescBytes).Pairwise
        (fun a b => b.total_bytes ≤ a.total_bytes) := by
      refine hs.imp ?_
      intro a b hab
      simpa [convDescBytes, Nat.ble_eq] using hab
    exact List.Pairwise.sublist ( List.take_sublist 10 _) hs2
  · intro r _
    exact ⟨Int.natCast_nonneg _, Int.natCast_nonneg _,
      Int.natCast_nonneg _, Int.natCast_nonneg _⟩

theorem parse_conv_single_line :
    parse_conv "1.2.3.4 <-> 5.6.7.8 10 500 20 1000" =
      [⟨"1.2.3.4", "5.6.7.8", 10, 500, 20, 1000⟩] := by
  have h : convLoop (pyLines "1.2.3.4 <-> 5.6.7.8 10 500 20 1000") [] =
      [⟨"1.2.3.4", "5.6.7.8", 10, 500, 20, 1000⟩] := by decide
  rw [parse_conv, h, List.mergeSort_singleton]
  rfl

theorem parse_conv_sorted_desc_capped_witness :
    (⟨"1.2.3.4", "5.6.7.8", 10, 500, 20, 1000⟩ : ConvRecord) ∈
      parse_conv "1.2.3.4 <-> 5.6.7.8 10 500 20 1000" ∧
    (0 ≤ (((⟨"1.2.3.4", "5.6.7.8", 10, 500, 20, 1000⟩ : ConvRecord)).packets : Int) ∧
      0 ≤ (((⟨"1.2.3.4", "5.6.7.8", 10, 500, 20, 1000⟩ : ConvRecord)).bytes : Int) ∧
      0 ≤ (((⟨"1.2.3.4", "5.6.7.8", 10, 500, 20, 1000⟩ : ConvRecord)).total_packets : Int) ∧
      0 ≤ (((⟨"1.2.3.4", "5.6.7.8", 10, 500, 20, 1000⟩ : ConvRecord)).total_bytes : Int)) :=
  ⟨by rw [parse_conv_single_line]; exact List.mem_singleton.mpr rfl,
    (parse_conv_sorted_desc_capped "1.2.3.4 <-> 5.6.7.8 10 500 20 1000").2.2
      ⟨"1.2.3.4", "5.6.7.8", 10, 500, 20, 1000⟩
      (by rw [parse_conv_single_line]; exact List.mem_singleton.mpr rfl)⟩

/-! ## Concrete example, error path, report story, download path -/

/-- C5 counterexample: on the hierarchy text made of exactly the lines
`tcp frames:120 bytes:15000` and `dns frames:5 bytes:400` (with an empty
expert text) the DNS-only rule does NOT fire: the check `"DNS" in proto_stats`
is case-sensitive and the text only contains lowercase `dns`, so the score is
0 and no DNS reason is emitted — the claimed +15 contribution is absent. -/
theorem dns_rule_silent_on_example_hierarchy :
    dnsFired "tcp frames:120 bytes:15000\ndns frames:5 bytes:400" = false ∧
    (calculate_risk "" "tcp frames:120 bytes:15000\ndns frames:5 bytes:400").score = 0 ∧
    ((calculate_risk "" "tcp frames:120 bytes:15000\ndns frames:5 bytes:400").reasons.contains
      dnsReason) = false := by decide

/-- C5 amended: on that two-line hierarchy text with empty expert text, the
line-count condition would hold (2 < 5) but the case-sensitive `"DNS"` marker
is absent, so no rule fires: the result is score 0, level Low, and the single
default reason; `parse_phs` does return exactly the records
`{tcp, 120, 15000}` and `{dns, 5, 400}` in that order. -/
theorem example_hierarchy_parse_and_risk :
    calculate_risk "" "tcp frames:120 bytes:15000\ndns frames:5 bytes:400" =
      ⟨0, "Low", [defaultReason]⟩ ∧
    parse_phs "tcp frames:120 bytes:15000\ndns frames:5 bytes:400" =
      [⟨"tcp", 120, 15000⟩, ⟨"dns", 5, 400⟩] := by decide

/-- C7 counterexample: two invocations of the same report mode that fail with
the same exit status but different stderr output produce the same error
payload, so the payload cannot carry the captured stderr; there is no
`ToolInvocationError` anywhere — the blanket handler returns a generic
`{"status": "error", "message": str(e)}` dict. -/
theorem tool_error_payload_drops_stderr :
    analyze_error_response
        ⟨["tshark", "-r", "uploads/capture.pcap", "-z", "io,phs"], 2,
          "tshark: The file does not exist."⟩ =
      analyze_error_response
        ⟨["tshark", "-r", "uploads/capture.pcap", "-z", "io,phs"], 2, ""⟩ ∧
    (("tshark: The file does not exist." == "") = false) :=
  ⟨rfl, by decide⟩

/-- C7 amended: an invocation failure is caught by the blanket
`except Exception` handler and surfaced as the generic payload
`{"status": "error", "message": str(e)}`; for a non-zero exit the message
embeds the command line (hence the mode selector) and the exit status, but is
independent of anything the tool wrote to stderr, which is never captured. -/
theorem invocation_failure_generic_payload (cmd : List String) (rc : Nat)
    (s1 s2 : String) :
    (analyze_error_response ⟨cmd, rc, s1⟩).status = "error" ∧
    (analyze_error_response ⟨cmd, rc, s1⟩).message =
      "Command \x27" ++ pyStrList cmd ++ "\x27 returned non-zero exit status "
        ++ toString rc ++ "." ∧
    analyze_error_response ⟨cmd, rc, s1⟩ = analyze_error_response ⟨cmd, rc, s2⟩ :=
  ⟨rfl, rfl, rfl⟩

/-- C8 counterexample: with an empty top-talkers list the generated story is
exactly this ten-element list — it ends with the section heading, and neither
a table nor any placeholder line follows it, contradicting the claimed
placeholder. -/
theorem empty_talkers_story_concrete :
    generate_story emptyTalkersData =
      [Element.para "PacketPrism Forensics Report" "Title",
       Element.para "File: capture.pcap" "Normal",
       Element.spacer 1 12,
       Element.para "Risk Assessment: Low (Score: 0)" "Heading2",
       Element.para "• No major anomalies detected." "Normal",
       Element.spacer 1 12,
       Element.para "Protocol Hierarchy" "Heading2",
       Element.preformatted "hier" "PrismCode",
       Element.spacer 1 12,
       Element.para "Host Communication Analysis (Top Talkers)" "Heading2"] := by decide

/-- C8 amended: for every report datum whose top-talkers list is empty, the
story's final element is the top-talkers section heading — the table branch
is skipped and, there being no `else` branch, nothing (neither table nor
placeholder) is rendered in its place. -/
theorem empty_talkers_heading_then_nothing (fn h : String) (r : RiskAssessment) :
    (generate_story ⟨fn, r, h, []⟩).getLast? =
      some (Element.para "Host Communication Analysis (Top Talkers)" "Heading2") ∧
    ∀ rows, ((generate_story ⟨fn, r, h, []⟩).contains (Element.table rows)) = false := by
  have hmain : ∀ rows, (Element.table rows) ∉ generate_story ⟨fn, r, h, []⟩ := by
    intro rows
    rcases eq_or_ne r.reasons [] with hr | hr <;> simp [generate_story, hr]
  constructor
  · rcases eq_or_ne r.reasons [] with hr | hr <;>
      simp [generate_story, hr, List.getLast?_cons, List.getLast?_append]
  · intro rows
    simpa [List.contains, List.elem_eq_mem, decide_eq_false_iff_not] using hmain rows

/-- C10: `download_file` joins the caller-supplied filename directly onto the
storage directory with no normalization and no separator check, so there is a
filename — here `../../etc/passwd` — whose joined path, once resolved,
lies outside the storage directory. -/
theorem download_path_escapes_storage_dir :
    ∃ filename : String,
      download_path filename = UPLOAD_DIR ++ "/" ++ filename ∧
      posixNormpath (download_path filename) = "../etc/passwd" ∧
      withinUploadDir (download_path filename) = false :=
  ⟨"../../etc/passwd", by decide, by decide, by decide⟩
